import Mathlib

/-!
Shallow embedding of the document-extraction program: a `DataExtractor`
over PDF / DOCX / PPTX document handles (file_extractor.py) and the
MySQL persistence sink's table-saving loop (storage.py).

Python string values that may be `None` are modelled as `Option String`;
table cells are `Option String` because layout-detected PDF table cells
may be `None` while DOCX/PPTX cells are always strings.
-/

namespace DocExtract

/-- Python's default `str.strip()` character class (whitespace). -/
def isWS (c : Char) : Bool := c.isWhitespace

/-- Embedding of Python `str.strip()` on the character list: drop leading
whitespace, then trailing whitespace. -/
def stripList (l : List Char) : List Char :=
  List.rdropWhile isWS (l.dropWhile isWS)

/-- Embedding of Python `str.strip()`. -/
def pyStrip (s : String) : String := String.mk (stripList s.data)

/-- Python truthiness of an optional string: `None` and `""` are falsy. -/
def pyTruthy (o : Option String) : Bool :=
  match o with
  | none => false
  | some s => !s.isEmpty

/-- Python `sub in s` on strings: `hasLead pat l` checks that `pat` is a
leading segment of `l`. -/
def hasLead : List Char → List Char → Bool
  | [], _ => true
  | _ :: _, [] => false
  | a :: ps, b :: ls => a == b && hasLead ps ls

/-- Python `sub in s` on strings: occurrence of `pat` anywhere in `l`. -/
def hasSub (pat : List Char) : List Char → Bool
  | [] => pat.isEmpty
  | b :: ls => hasLead pat (b :: ls) || hasSub pat ls

/-- Python `sub in s` membership test for strings. -/
def pyInStr (sub s : String) : Bool := hasSub sub.data s.data

/-- Python errors raised by the extractor: `raise ValueError(msg)`. -/
inductive PyErr where
  | valueError (msg : String)
  deriving Repr, DecidableEq

/-- Message of the `else: raise ValueError(...)` branch shared by all four
extraction operations. -/
def unsupportedMsg : String :=
  "Unsupported file format. Only PDF, DOCX, and PPTX are supported."

/-- Properties object handed to `_extract_metadata`: any of the four
conceptual attributes may be absent (`getattr` default case). -/
structure PropsObj where
  author : Option String
  created : Option String
  last_modified_by : Option String
  title : Option String
  deriving Repr, DecidableEq

/-- Metadata dictionary returned by `_extract_metadata`. -/
structure Metadata where
  author : String
  created : String
  last_modified_by : String
  title : String
  deriving Repr, DecidableEq

/-- Embedding of `DataExtractor._extract_metadata`: each field is read with
`getattr(properties, name, '')`. -/
def extractMetadata (properties : PropsObj) : Metadata :=
  { author := properties.author.getD ""
    created := properties.created.getD ""
    last_modified_by := properties.last_modified_by.getD ""
    title := properties.title.getD "" }

/-- Location tag attached to an extracted link or image: `page_number` for
PDF, `page_number = None` (links) or no location key (images) for DOCX,
`slide_number` for PPTX. -/
inductive Loc where
  | page (n : Nat)
  | absent
  | slide (n : Nat)
  deriving Repr, DecidableEq

/-- One extracted link dictionary: url plus its location tag. -/
structure ExtractedLink where
  url : String
  loc : Loc
  deriving Repr, DecidableEq

/-- One extracted image dictionary: raw bytes, lowercased format tag,
"WxH" resolution string, location tag. -/
structure ExtractedImage where
  image : List Nat
  image_format : String
  image_resolution : String
  loc : Loc
  deriving Repr, DecidableEq

/-- A table cell as a Python value: a string or `None`. -/
abbrev PyCell : Type := Option String

/-- A table as returned by `extract_tables`: rows of cells. -/
abbrev PyTable : Type := List (List PyCell)

/-- PyPDF2 page as seen by `extract_text`: `page.extract_text()` may
return `None`. -/
structure PyPdfPage where
  textLayer : Option String
  deriving Repr, DecidableEq

/-- One fitz link annotation entry: `link.get("uri", "")` may find no
`uri` key. -/
structure FitzLink where
  uri : Option String
  deriving Repr, DecidableEq

/-- One embedded image reference on a fitz page, with the data
`doc.extract_image` resolves for it. -/
structure FitzImage where
  blob : List Nat
  ext : String
  w : Nat
  h : Nat
  deriving Repr, DecidableEq

/-- A page of the fitz re-open of the PDF path: its link annotations and
embedded image references, in traversal order. -/
structure FitzPage where
  links : List FitzLink
  images : List FitzImage
  deriving Repr, DecidableEq

/-- A page of the pdfplumber re-open of the PDF path: the tables its
layout detection finds (`page.extract_tables()`), verbatim. -/
structure PlumberPage where
  detectedTables : List PyTable
  deriving Repr, DecidableEq

/-- A loaded PDF handle: the PyPDF2 document (`pages`, `metadata`) plus
the content the two re-opens of `file_path` (fitz, pdfplumber) expose. -/
structure PdfDoc where
  file_path : String
  pages : List PyPdfPage
  metadata : PropsObj
  fitzPages : List FitzPage
  plumberPages : List PlumberPage
  deriving Repr, DecidableEq

/-- A DOCX/PPTX table cell object (`cell.text`). -/
structure TCell where
  text : String
  deriving Repr, DecidableEq

/-- A DOCX/PPTX table row object (`row.cells`). -/
structure TRow where
  cells : List TCell
  deriving Repr, DecidableEq

/-- A DOCX table object (`table.rows`). -/
structure DocxTable where
  rows : List TRow
  deriving Repr, DecidableEq

/-- A DOCX paragraph: its text and the `r:id` attributes of its
`w:hyperlink` XML elements (an element may lack the attribute). -/
structure DocxPara where
  text : String
  hyperlinkIds : List (Option String)
  deriving Repr, DecidableEq

/-- One relationship of the DOCX package part (`part.rels`): id, target
reference, target blob, and what the PIL sniffer reports for the blob. -/
structure DocxRel where
  rId : String
  target_ref : String
  blob : List Nat
  sniffFormat : String
  sniffW : Nat
  sniffH : Nat
  deriving Repr, DecidableEq

/-- A loaded DOCX handle (`python-docx` Document). -/
structure DocxDoc where
  paragraphs : List DocxPara
  tables : List DocxTable
  core_properties : PropsObj
  rels : List DocxRel
  deriving Repr, DecidableEq

/-- A PPTX text run: `run.hyperlink.address` is `None` or a string. -/
structure PptxRun where
  hyperlink : Option String
  deriving Repr, DecidableEq

/-- A PPTX text-frame paragraph (`paragraph.runs`). -/
structure PptxPara where
  runs : List PptxRun
  deriving Repr, DecidableEq

/-- A PPTX table object (`shape.table.rows`). -/
structure PptxTable where
  rows : List TRow
  deriving Repr, DecidableEq

/-- A picture payload of a PPTX shape (`shape.image`), with the PIL
sniffer's report for its blob. -/
structure PptxImage where
  blob : List Nat
  sniffFormat : String
  sniffW : Nat
  sniffH : Nat
  deriving Repr, DecidableEq

/-- A PPTX shape: optional text attribute, optional shape-level hyperlink
address, optional text frame, optional table, optional image. `none`
models a missing attribute (`hasattr` false) or a `None` value. -/
structure PptxShape where
  text : Option String
  hyperlink : Option String
  textFrame : Option (List PptxPara)
  table : Option PptxTable
  image : Option PptxImage
  deriving Repr, DecidableEq

/-- A PPTX slide (`slide.shapes`). -/
structure PptxSlide where
  shapes : List PptxShape
  deriving Repr, DecidableEq

/-- A loaded PPTX handle (`python-pptx` Presentation). -/
structure PptxDoc where
  slides : List PptxSlide
  core_properties : PropsObj
  deriving Repr, DecidableEq

/-- The `DataExtractor`'s view of a loaded document: `self.file_type`
(the extension) coupled with `self.file`; `other ext` is any extension
outside {pdf, docx, pptx}, reaching the `else: raise` branches. -/
inductive Handle where
  | pdf (d : PdfDoc)
  | docx (d : DocxDoc)
  | pptx (d : PptxDoc)
  | other (ext : String)
  deriving Repr, DecidableEq

/-- Embedding of `DataExtractor.extract_text`. -/
def extract_text : Handle → Except PyErr (String × Metadata)
  | .pdf d =>
      .ok (String.join (d.pages.map (fun p => p.textLayer.getD "")),
           extractMetadata d.metadata)
  | .docx d =>
      .ok (String.intercalate "\n" (d.paragraphs.map DocxPara.text),
           extractMetadata d.core_properties)
  | .pptx d =>
      .ok (String.intercalate "\n"
             (d.slides.flatMap (fun s => s.shapes.filterMap PptxShape.text)),
           extractMetadata d.core_properties)
  | .other _ => .error (.valueError unsupportedMsg)

/-- Embedding of `DataExtractor._extract_pdf_link` on one fitz page. -/
def extract_pdf_link (page : FitzPage) (page_number : Nat) : List ExtractedLink :=
  page.links.map (fun l => { url := l.uri.getD "", loc := .page page_number })

/-- The `for page_num in range(len(doc))` loop of `extract_links` for
PDF, carrying the 1-based page number. -/
def pdfLinksLoop : List FitzPage → Nat → List ExtractedLink
  | [], _ => []
  | p :: ps, n => extract_pdf_link p n ++ pdfLinksLoop ps (n + 1)

/-- The relationship lookup `para.part.rels[rId]` guarded by
`rId in para.part.rels`. -/
def relLookup (rels : List DocxRel) (rId : String) : Option DocxRel :=
  rels.find? (fun r => r.rId == rId)

/-- The DOCX branch of `extract_links`: per paragraph, each `w:hyperlink`
whose `r:id` resolves in the part's relationships. -/
def docxLinks (d : DocxDoc) : List ExtractedLink :=
  d.paragraphs.flatMap (fun para =>
    para.hyperlinkIds.filterMap (fun rid =>
      match rid with
      | some r =>
          match relLookup d.rels r with
          | some rel => some { url := rel.target_ref, loc := .absent }
          | none => none
      | none => none))

/-- Links one PPTX shape contributes: its own hyperlink address if truthy,
then one link per truthy run-level hyperlink address in its text frame. -/
def pptxShapeLinks (slide_number : Nat) (sh : PptxShape) : List ExtractedLink :=
  (if pyTruthy sh.hyperlink then
      [{ url := sh.hyperlink.getD "", loc := .slide slide_number }]
    else []) ++
  (match sh.textFrame with
   | none => []
   | some paras =>
       paras.flatMap (fun pa =>
         pa.runs.filterMap (fun run =>
           if pyTruthy run.hyperlink then
             some { url := run.hyperlink.getD "", loc := .slide slide_number }
           else none)))

/-- The `for slide_num, slide in enumerate(...)` loop of `extract_links`
for PPTX, carrying the 1-based slide number. -/
def pptxLinksLoop : List PptxSlide → Nat → List ExtractedLink
  | [], _ => []
  | s :: ss, n => s.shapes.flatMap (pptxShapeLinks n) ++ pptxLinksLoop ss (n + 1)

/-- Embedding of `DataExtractor.extract_links`. -/
def extract_links : Handle → Except PyErr (List ExtractedLink)
  | .pdf d => .ok (pdfLinksLoop d.fitzPages 1)
  | .docx d => .ok (docxLinks d)
  | .pptx d => .ok (pptxLinksLoop d.slides 1)
  | .other _ => .error (.valueError unsupportedMsg)

/-- Embedding of `DataExtractor._extract_table_row`:
`[cell.text.strip() for cell in row.cells]`. -/
def extract_table_row (row : TRow) : List String :=
  row.cells.map (fun c => pyStrip c.text)

/-- Embedding of `DataExtractor.extract_tables`; DOCX/PPTX string cells
are injected into the Python value domain `PyCell` with `some`. -/
def extract_tables : Handle → Except PyErr (List PyTable)
  | .pdf d => .ok (d.plumberPages.flatMap PlumberPage.detectedTables)
  | .docx d =>
      .ok (d.tables.map (fun t =>
        t.rows.map (fun r => (extract_table_row r).map some)))
  | .pptx d =>
      .ok ((d.slides.flatMap PptxSlide.shapes).filterMap (fun sh =>
        sh.table.map (fun t =>
          t.rows.map (fun r => (extract_table_row r).map some))))
  | .other _ => .error (.valueError unsupportedMsg)

/-- The `_process_image` result for one PDF image reference. -/
def processPdfImage (im : FitzImage) (page_number : Nat) : ExtractedImage :=
  { image := im.blob
    image_format := im.ext
    image_resolution := toString im.w ++ "x" ++ toString im.h
    loc := .page page_number }

/-- The `for page_num in range(len(doc))` loop of `extract_images` for
PDF, carrying the 1-based page number. -/
def pdfImagesLoop : List FitzPage → Nat → List ExtractedImage
  | [], _ => []
  | p :: ps, n => p.images.map (fun im => processPdfImage im n) ++ pdfImagesLoop ps (n + 1)

/-- The `for slide_num, slide in enumerate(...)` loop of `extract_images`
for PPTX, carrying the 1-based slide number. -/
def pptxImagesLoop : List PptxSlide → Nat → List ExtractedImage
  | [], _ => []
  | s :: ss, n =>
      s.shapes.filterMap (fun sh =>
        sh.image.map (fun im =>
          { image := im.blob
            image_format := im.sniffFormat.toLower
            image_resolution := toString im.sniffW ++ "x" ++ toString im.sniffH
            loc := .slide n })) ++ pptxImagesLoop ss (n + 1)

/-- Embedding of `DataExtractor.extract_images`. -/
def extract_images : Handle → Except PyErr (List ExtractedImage)
  | .pdf d => .ok (pdfImagesLoop d.fitzPages 1)
  | .docx d =>
      .ok (d.rels.filterMap (fun rel =>
        if pyInStr "image" rel.target_ref then
          some { image := rel.blob
                 image_format := rel.sniffFormat.toLower
                 image_resolution := toString rel.sniffW ++ "x" ++ toString rel.sniffH
                 loc := .absent }
        else none))
  | .pptx d => .ok (pptxImagesLoop d.slides 1)
  | .other _ => .error (.valueError unsupportedMsg)

/-!
State-passing embedding of the four extractor methods. The method bodies
in the source assign no attribute of `self` and mutate no field of the
loaded document (they only read and build local lists), so each method,
threaded through the extractor state, returns that state unchanged.
-/

/-- The `DataExtractor` instance state: the bound handle
(`self.file`, `self.file_path`, `self.file_type`). -/
structure ExtractorState where
  handle : Handle
  deriving Repr, DecidableEq

/-- State-passing run of `extract_text`. -/
def runExtractText (st : ExtractorState) :
    Except PyErr (String × Metadata) × ExtractorState :=
  (extract_text st.handle, st)

/-- State-passing run of `extract_images`. -/
def runExtractImages (st : ExtractorState) :
    Except PyErr (List ExtractedImage) × ExtractorState :=
  (extract_images st.handle, st)

/-- State-passing run of `extract_tables`. -/
def runExtractTables (st : ExtractorState) :
    Except PyErr (List PyTable) × ExtractorState :=
  (extract_tables st.handle, st)

/-- State-passing run of `extract_links`. -/
def runExtractLinks (st : ExtractorState) :
    Except PyErr (List ExtractedLink) × ExtractorState :=
  (extract_links st.handle, st)

/-!
Embedding of the table-persistence loop of `MySQLStorage.save`
(storage.py). The MySQL connection is modelled as an explicit store of
created tables and successfully inserted rows; `mysql.connector.Error`
outcomes of the schema block and of single-row inserts are environmental
and are modelled by a failure oracle. Cell values reaching the sink are
modelled as strings (the domain on which `col.strip()` is defined).
-/

/-- Python single-character `str.replace(c, d)`. -/
def pyReplaceChar (c d : Char) (s : String) : String :=
  String.mk (s.data.map (fun x => if x == c then d else x))

/-- Column-name sanitization of `MySQLStorage.save`:
`col.strip().replace(" ", "_").replace("-", "_").replace(".", "_")`. -/
def sanitizeCol (col : String) : String :=
  pyReplaceChar '.' '_' (pyReplaceChar '-' '_' (pyReplaceChar ' ' '_' (pyStrip col)))

/-- Generated relational table name `f'extracted_table_{n}'`. -/
def tableNameFor (n : Nat) : String :=
  "extracted_table_" ++ toString n

/-- State of the relational store together with the process-wide class
counter `MySQLStorage.table_name`: created tables (name, data columns)
and the log of successfully inserted rows (table, columns, values). -/
structure DBState where
  counter : Nat
  tables : List (String × List String)
  rows : List (String × List String × List String)
  deriving Repr, DecidableEq

/-- Environmental failure oracle: which schema blocks
(`SHOW TABLES` / `ALTER` / `CREATE`) and which single-row `INSERT`
statements raise `mysql.connector.Error`. -/
structure SqlOracle where
  schemaFails : String → Bool
  insertFails : String → List String → Bool

/-- The oracle of a run in which MySQL reports no error. -/
def noFailOracle : SqlOracle :=
  { schemaFails := fun _ => false, insertFails := fun _ _ => false }

/-- The schema block of `MySQLStorage.save`: if the generated name
exists, add the missing sanitized columns; otherwise create the table
with the sanitized columns. -/
def applySchema (st : DBState) (name : String) (cols : List String) : DBState :=
  match st.tables.lookup name with
  | some existing =>
      { st with tables := st.tables.map (fun nc =>
          if nc.1 = name then
            (nc.1, nc.2 ++ cols.filter (fun c => !existing.contains c))
          else nc) }
  | none => { st with tables := st.tables ++ [(name, cols)] }

/-- The row-insert loop of `MySQLStorage.save` over `table[1:]`: each
failing insert is caught and that row alone is skipped. -/
def insertRows (o : SqlOracle) (name : String) (cols : List String)
    (rs : List (List String)) (st : DBState) : DBState :=
  rs.foldl (fun acc row =>
    if o.insertFails name row then acc
    else { acc with rows := acc.rows ++ [(name, cols, row)] }) st

/-- One iteration of the table loop of `MySQLStorage.save`: skip empty
tables; otherwise generate the name from the counter, bump the counter,
run the schema block (a caught failure skips the whole table), then
insert rows 1..N. -/
def saveOneTable (o : SqlOracle) (st : DBState) :
    List (List String) → DBState
  | [] => st
  | r0 :: rest =>
      let cols := r0.map sanitizeCol
      let name := tableNameFor st.counter
      let st1 := { st with counter := st.counter + 1 }
      if o.schemaFails name then st1
      else insertRows o name cols rest (applySchema st1 name cols)

/-- The table-persistence loop of `MySQLStorage.save` over all extracted
tables of one document. -/
def saveTables (o : SqlOracle) (tabs : List (List (List String)))
    (st : DBState) : DBState :=
  tabs.foldl (saveOneTable o) st

/-- The initial store: the class attribute `table_name` starts at 1. -/
def dbInit : DBState := { counter := 1, tables := [], rows := [] }

/-!
Spec-side definitions: these restate what the claims say, to be compared
with (or refuted against) the code-side definitions above.
-/

/-- Claim-side column sanitization (C7): derive the column from the header
cell by replacing spaces, hyphens, and periods with underscores — and
nothing else. -/
def claimSanitizeCol (col : String) : String :=
  pyReplaceChar '.' '_' (pyReplaceChar '-' '_' (pyReplaceChar ' ' '_' col))

/-- Claim-side description of PDF link extraction (C5): one link per
annotation entry per page, `page_number` the 1-based page index, entries
without a URI resolving to url `""` rather than being dropped. -/
def specPdfLinks (d : PdfDoc) : List ExtractedLink :=
  (List.enumFrom 1 d.fitzPages).flatMap (fun np =>
    np.2.links.map (fun l => { url := l.uri.getD "", loc := Loc.page np.1 }))

/-- Claim-side links of one PPTX shape (C6): one link if the shape itself
carries a (truthy) hyperlink address, plus one per run with a hyperlink
address anywhere in the shape's text frame, not deduplicated. -/
def specShapeLinks (n : Nat) (sh : PptxShape) : List ExtractedLink :=
  (if pyTruthy sh.hyperlink then
      [{ url := sh.hyperlink.getD "", loc := Loc.slide n }]
    else []) ++
  ((sh.textFrame.getD []).flatMap (fun pa =>
    pa.runs.filterMap (fun run =>
      if pyTruthy run.hyperlink then
        some { url := run.hyperlink.getD "", loc := Loc.slide n }
      else none)))

/-- Claim-side description of PPTX link extraction (C6): per slide
(1-based), per shape, the shape's own link followed by its run links. -/
def specPptxLinks (d : PptxDoc) : List ExtractedLink :=
  (List.enumFrom 1 d.slides).flatMap (fun ns =>
    ns.2.shapes.flatMap (specShapeLinks ns.1))

/-!
Helper lemmas.
-/

/-- Stripping is idempotent on character lists: the left-then-right
whitespace drop leaves a list it leaves unchanged when applied again. -/
theorem stripList_stripList (l : List Char) :
    stripList (stripList l) = stripList l := by
  unfold stripList
  have h1 : (List.rdropWhile isWS (l.dropWhile isWS)).dropWhile isWS
      = List.rdropWhile isWS (l.dropWhile isWS) := by
    rw [List.dropWhile_eq_self_iff]
    intro hl
    have hpre := List.rdropWhile_prefix isWS (l.dropWhile isWS)
    have hlen : 0 < (l.dropWhile isWS).length := lt_of_lt_of_le hl hpre.length_le
    have hget := hpre.getElem (n := 0) hl
    rw [List.get_eq_getElem, hget]
    have h0 := List.dropWhile_get_zero_not isWS l hlen
    rwa [List.get_eq_getElem] at h0
  rw [h1, List.rdropWhile_idempotent]

/-- Python `strip` is idempotent: a value produced by `pyStrip` has no
leading or trailing whitespace left to remove. -/
theorem pyStrip_pyStrip (s : String) : pyStrip (pyStrip s) = pyStrip s :=
  congrArg String.mk (stripList_stripList s.data)

/-- The PDF link loop is the per-page enumeration the claim describes. -/
theorem pdfLinksLoop_eq (ps : List FitzPage) (n : Nat) :
    pdfLinksLoop ps n = (List.enumFrom n ps).flatMap (fun np =>
      np.2.links.map (fun l => { url := l.uri.getD "", loc := Loc.page np.1 })) := by
  induction ps generalizing n with
  | nil => rfl
  | cons p ps ih => simp [pdfLinksLoop, List.enumFrom, ih n.succ, extract_pdf_link]

/-- Per-shape PPTX links agree with the claim-side description. -/
theorem pptxShapeLinks_eq (n : Nat) (sh : PptxShape) :
    pptxShapeLinks n sh = specShapeLinks n sh := by
  cases h : sh.textFrame <;> simp [pptxShapeLinks, specShapeLinks, h]

/-- The PPTX link loop is the per-slide enumeration the claim describes. -/
theorem pptxLinksLoop_eq (ss : List PptxSlide) (n : Nat) :
    pptxLinksLoop ss n = (List.enumFrom n ss).flatMap (fun ns =>
      ns.2.shapes.flatMap (specShapeLinks ns.1)) := by
  induction ss generalizing n with
  | nil => rfl
  | cons s ss ih =>
      have hfn : pptxShapeLinks n = specShapeLinks n := funext (pptxShapeLinks_eq n)
      simp [pptxLinksLoop, List.enumFrom, ih n.succ, hfn]

/-- When no insert fails, the row loop appends exactly the rows 1..N in
order, each tagged with the table name and sanitized column list. -/
theorem insertRows_all_ok (o : SqlOracle) (name : String) (cols : List String)
    (rs : List (List String)) (st : DBState)
    (h : ∀ row, o.insertFails name row = false) :
    insertRows o name cols rs st =
      { st with rows := st.rows ++ rs.map (fun row => (name, cols, row)) } := by
  induction rs generalizing st with
  | nil => simp [insertRows]
  | cons r rs ih =>
      simp only [insertRows, List.foldl_cons, h r, Bool.false_eq_true, if_false] at *
      rw [ih]
      simp

/-- The rows the row loop inserts are exactly the non-failing rows, in
order: a failing row is skipped and the traversal continues. -/
theorem insertRows_rows (o : SqlOracle) (name : String) (cols : List String)
    (rs : List (List String)) (st : DBState) :
    (insertRows o name cols rs st).rows =
      st.rows ++ (rs.filter (fun row => !o.insertFails name row)).map
        (fun row => (name, cols, row)) := by
  induction rs generalizing st with
  | nil => simp [insertRows]
  | cons r rs ih =>
      by_cases h : o.insertFails name r = true
      · simp [insertRows, List.foldl_cons, h, List.filter_cons] at *
        rw [ih]
      · simp only [Bool.not_eq_true] at h
        simp [insertRows, List.foldl_cons, h, List.filter_cons] at *
        rw [ih]
        simp

/-!
Concrete fixtures used by counterexamples and witnesses.
-/

/-- A properties object with all four attributes absent. -/
def props0 : PropsObj := ⟨none, none, none, none⟩

/-- PDF whose pdfplumber re-open detects one table with a single
whitespace-padded cell. -/
def pdfDocC1 : PdfDoc :=
  { file_path := "doc.pdf", pages := [], metadata := props0, fitzPages := [],
    plumberPages := [{ detectedTables := [[[some " x "]]] }] }

/-- DOCX with one table, one row, one whitespace-padded cell. -/
def docxDocC1 : DocxDoc :=
  { paragraphs := [], tables := [{ rows := [{ cells := [{ text := " x " }] }] }],
    core_properties := props0, rels := [] }

/-- DOCX whose paragraphs are "Hello" and "World". -/
def docxDocC2 : DocxDoc :=
  { paragraphs := [{ text := "Hello", hyperlinkIds := [] },
                   { text := "World", hyperlinkIds := [] }],
    tables := [], core_properties := props0, rels := [] }

/-- Two-page PDF with no links on page 1 and one `https://x` link on
page 2. -/
def pdfDocC5 : PdfDoc :=
  { file_path := "two.pdf", pages := [], metadata := props0,
    fitzPages := [{ links := [], images := [] },
                  { links := [{ uri := some "https://x" }], images := [] }],
    plumberPages := [] }

/-- One-page PDF with a single link annotation that has no `uri` key. -/
def pdfDocC5b : PdfDoc :=
  { file_path := "nouri.pdf", pages := [], metadata := props0,
    fitzPages := [{ links := [{ uri := none }], images := [] }],
    plumberPages := [] }

/-- A shape carrying its own hyperlink `"u"` and a text frame with one
hyperlinked run, also `"u"`. -/
def shapeC6 : PptxShape :=
  { text := none
    hyperlink := some "u"
    textFrame := some [{ runs := [{ hyperlink := none }, { hyperlink := some "u" }] }]
    table := none
    image := none }

/-- One-slide PPTX containing only `shapeC6`. -/
def pptxDocC6 : PptxDoc :=
  { slides := [{ shapes := [shapeC6] }], core_properties := props0 }

/-- Oracle whose schema block fails exactly for `extracted_table_1`. -/
def oracleC8 : SqlOracle :=
  { schemaFails := fun n => n == tableNameFor 1, insertFails := fun _ _ => false }

/-!
Claim theorems.
-/

/-- C1 (counterexample): the claim fails for Paged documents — the PDF
branch of `extract_tables` appends the layout-detected tables verbatim,
so a detected cell `" x "` is returned with its whitespace intact and is
not a stripped string. -/
theorem c1_counterexample :
    extract_tables (Handle.pdf pdfDocC1) = Except.ok [[[some " x "]]] ∧
    ¬ (∀ t ∈ ([[[some " x "]]] : List PyTable), ∀ r ∈ t, ∀ c ∈ r,
        ∃ s, c = some s ∧ pyStrip s = s) := by
  refine ⟨rfl, fun H => ?_⟩
  obtain ⟨s, hs, hstr⟩ :=
    H [[some " x "]] (by decide) [some " x "] (by decide) (some " x ") (by decide)
  have hx : (" x " : String) = s := Option.some.inj hs
  rw [← hx] at hstr
  exact absurd hstr (by decide)

/-- C1 (amended): for every Flowed (DOCX) and Slides (PPTX) document,
every cell of every row returned by `extract_tables` is a string with
leading and trailing whitespace stripped, never summarized or
type-converted; Paged (PDF) tables are returned verbatim from layout
detection and are exempt. -/
theorem c1_amended (h : Handle) (ts : List PyTable)
    (hkind : (∃ dd, h = Handle.docx dd) ∨ (∃ pd, h = Handle.pptx pd))
    (hts : extract_tables h = Except.ok ts)
    (t : PyTable) (ht : t ∈ ts) (r : List PyCell) (hr : r ∈ t)
    (c : PyCell) (hc : c ∈ r) :
    ∃ s, c = some s ∧ pyStrip s = s := by
  rcases hkind with ⟨dd, rfl⟩ | ⟨pd, rfl⟩
  · simp only [extract_tables, Except.ok.injEq] at hts
    subst hts
    obtain ⟨tab, _, rfl⟩ := List.mem_map.mp ht
    obtain ⟨row, _, rfl⟩ := List.mem_map.mp hr
    obtain ⟨cell, hcell, rfl⟩ := List.mem_map.mp hc
    obtain ⟨tc, _, rfl⟩ := List.mem_map.mp hcell
    exact ⟨pyStrip tc.text, rfl, pyStrip_pyStrip tc.text⟩
  · simp only [extract_tables, Except.ok.injEq] at hts
    subst hts
    obtain ⟨sh, _, hsh⟩ := List.mem_filterMap.mp ht
    obtain ⟨tb, _, rfl⟩ := Option.map_eq_some'.mp hsh
    obtain ⟨row, _, rfl⟩ := List.mem_map.mp hr
    obtain ⟨cell, hcell, rfl⟩ := List.mem_map.mp hc
    obtain ⟨tc, _, rfl⟩ := List.mem_map.mp hcell
    exact ⟨pyStrip tc.text, rfl, pyStrip_pyStrip tc.text⟩

/-- C1 (witness): a DOCX table cell `" x "` is extracted as the stripped
string `"x"`. -/
theorem c1_amended_witness :
    ∃ s, (some "x" : PyCell) = some s ∧ pyStrip s = s :=
  c1_amended (Handle.docx docxDocC1) [[[some "x"]]]
    (Or.inl ⟨docxDocC1, rfl⟩) rfl
    [[some "x"]] (by decide) [some "x"] (by decide) (some "x") (by decide)

/-- C2: for every Flowed (DOCX) document, `extract_text` joins the
paragraphs' texts with a single newline separator; in particular
paragraphs ["Hello", "World"] yield exactly "Hello\nWorld". -/
theorem c2_flowed_text_newline (d : DocxDoc) :
    extract_text (Handle.docx d) =
      Except.ok (String.intercalate "\n" (d.paragraphs.map DocxPara.text),
        extractMetadata d.core_properties) ∧
    (d.paragraphs.map DocxPara.text = ["Hello", "World"] →
      extract_text (Handle.docx d) =
        Except.ok ("Hello\nWorld", extractMetadata d.core_properties)) := by
  refine ⟨rfl, fun h => ?_⟩
  simp only [extract_text, h]
  rfl

/-- C2 (witness): the concrete two-paragraph document. -/
theorem c2_witness :
    extract_text (Handle.docx docxDocC2) =
      Except.ok ("Hello\nWorld", extractMetadata docxDocC2.core_properties) :=
  (c2_flowed_text_newline docxDocC2).2 rfl

/-- C3: `_extract_metadata` is total — each of the four conceptual fields
that is absent on the properties object resolves to the empty string in
the returned record; in particular a missing title yields `title = ""`. -/
theorem c3_metadata_total (p : PropsObj) :
    (p.author = none → (extractMetadata p).author = "") ∧
    (p.created = none → (extractMetadata p).created = "") ∧
    (p.last_modified_by = none → (extractMetadata p).last_modified_by = "") ∧
    (p.title = none → (extractMetadata p).title = "") := by
  refine ⟨fun h => ?_, fun h => ?_, fun h => ?_, fun h => ?_⟩ <;>
    simp [extractMetadata, h]

/-- C3 (witness): the all-absent properties object yields `title = ""`. -/
theorem c3_witness :
    props0.title = none ∧ (extractMetadata props0).title = "" :=
  ⟨rfl, (c3_metadata_total props0).2.2.2 rfl⟩

/-- C4: for every handle whose kind is outside {pdf, docx, pptx}, each
of the four extraction operations fails with the `ValueError` carrying
the non-empty unsupported-format diagnostic — never a silent no-op or an
undiagnosed crash. -/
theorem c4_unsupported_kind (ext : String) :
    extract_text (Handle.other ext) =
      Except.error (PyErr.valueError unsupportedMsg) ∧
    extract_images (Handle.other ext) =
      Except.error (PyErr.valueError unsupportedMsg) ∧
    extract_tables (Handle.other ext) =
      Except.error (PyErr.valueError unsupportedMsg) ∧
    extract_links (Handle.other ext) =
      Except.error (PyErr.valueError unsupportedMsg) ∧
    unsupportedMsg ≠ "" :=
  ⟨rfl, rfl, rfl, rfl, by decide⟩

/-- C5: for every Paged (PDF) document, `extract_links` emits one link
per annotation entry per page with the 1-based page number, entries
without a URI resolving to url `""`; the 2-page document with one link
on page 2 yields exactly that one link, page 1 contributing nothing. -/
theorem c5_pdf_links :
    (∀ d : PdfDoc, extract_links (Handle.pdf d) = Except.ok (specPdfLinks d)) ∧
    extract_links (Handle.pdf pdfDocC5) =
      Except.ok [{ url := "https://x", loc := Loc.page 2 }] ∧
    extract_links (Handle.pdf pdfDocC5b) =
      Except.ok [{ url := "", loc := Loc.page 1 }] := by
  refine ⟨fun d => ?_, rfl, rfl⟩
  simp [extract_links, pdfLinksLoop_eq, specPdfLinks]

/-- C6: for every Slides (PPTX) document, `extract_links` emits one link
per shape carrying its own hyperlink address plus one per hyperlinked
run in any text frame (1-based slide numbers, no deduplication); the
concrete shape with its own link "u" and a run link "u" contributes
both. -/
theorem c6_pptx_links :
    (∀ d : PptxDoc, extract_links (Handle.pptx d) = Except.ok (specPptxLinks d)) ∧
    extract_links (Handle.pptx pptxDocC6) =
      Except.ok [{ url := "u", loc := Loc.slide 1 },
                 { url := "u", loc := Loc.slide 1 }] := by
  refine ⟨fun d => ?_, rfl⟩
  simp [extract_links, pptxLinksLoop_eq, specPptxLinks]

/-- C7 (counterexample): the claim's column derivation (replace spaces,
hyphens, periods with underscores) disagrees with the code, which also
strips the header cell first: for header `" a b"` the code creates
column `"a_b"`, while the claim's derivation gives `"_a_b"`. -/
theorem c7_counterexample :
    (saveTables noFailOracle [[[" a b"], ["v"]]] dbInit).tables =
      [("extracted_table_1", ["a_b"])] ∧
    [" a b"].map claimSanitizeCol = ["_a_b"] ∧
    ("a_b" : String) ≠ "_a_b" := by
  refine ⟨by decide, by decide, by decide⟩

/-- C7 (amended): one relational table per non-empty extracted table,
named `extracted_table_N` from the monotonically increasing
process-lifetime counter (saving further documents continues the fold,
never resets); columns are derived from row 0 by stripping
leading/trailing whitespace and then replacing spaces, hyphens, and
periods with underscores; row 0 is not inserted as data and rows 1..N
are inserted positionally against the sanitized column list. -/
theorem c7_amended (o : SqlOracle) (st : DBState) (r0 : List String)
    (rest : List (List String))
    (hschema : o.schemaFails (tableNameFor st.counter) = false)
    (hins : ∀ row, o.insertFails (tableNameFor st.counter) row = false)
    (hnew : st.tables.lookup (tableNameFor st.counter) = none) :
    saveOneTable o st (r0 :: rest) =
      { counter := st.counter + 1
        tables := st.tables ++ [(tableNameFor st.counter, r0.map sanitizeCol)]
        rows := st.rows ++ rest.map (fun row =>
          (tableNameFor st.counter, r0.map sanitizeCol, row)) } ∧
    (∀ tabs1 tabs2 : List (List (List String)),
      saveTables o tabs2 (saveTables o tabs1 st) = saveTables o (tabs1 ++ tabs2) st) := by
  constructor
  · simp only [saveOneTable, hschema, Bool.false_eq_true, if_false]
    rw [insertRows_all_ok o _ _ rest _ hins]
    simp [applySchema, hnew]
  · intro tabs1 tabs2
    simp [saveTables, List.foldl_append]

/-- C7 (witness): saving the concrete table [["h"], ["v"]] from the
initial store. -/
theorem c7_amended_witness :
    saveOneTable noFailOracle dbInit [["h"], ["v"]] =
      { counter := dbInit.counter + 1
        tables := dbInit.tables ++ [(tableNameFor dbInit.counter, ["h"].map sanitizeCol)]
        rows := dbInit.rows ++ [["v"]].map (fun row =>
          (tableNameFor dbInit.counter, ["h"].map sanitizeCol, row)) } :=
  (c7_amended noFailOracle dbInit ["h"] [["v"]] rfl (fun _ => rfl) rfl).1

/-- C8: in the relational sink's save, a single row's insert failure
skips only that row (the remaining rows are still inserted, in order),
and a single table's schema failure skips only that table (the loop
continues with the remaining tables); the save is never aborted by one
item's failure. -/
theorem c8_failure_isolation (o : SqlOracle) (st : DBState) (name : String)
    (cols : List String) (rs : List (List String)) (r0 : List String)
    (rest : List (List String)) (tabs : List (List (List String)))
    (hfail : o.schemaFails (tableNameFor st.counter) = true) :
    (insertRows o name cols rs st).rows =
      st.rows ++ (rs.filter (fun row => !o.insertFails name row)).map
        (fun row => (name, cols, row)) ∧
    saveTables o ((r0 :: rest) :: tabs) st =
      saveTables o tabs { st with counter := st.counter + 1 } := by
  refine ⟨insertRows_rows o name cols rs st, ?_⟩
  simp [saveTables, saveOneTable, hfail]

/-- C8 (witness): a schema failure on `extracted_table_1` skips that
table and the loop proceeds on the given state. -/
theorem c8_witness :
    (insertRows oracleC8 "t" ["c"] [["v"]] dbInit).rows =
      dbInit.rows ++ (([["v"]].filter (fun row => !oracleC8.insertFails "t" row)).map
        (fun row => ("t", ["c"], row))) ∧
    saveTables oracleC8 [[["h"], ["v"]]] dbInit =
      saveTables oracleC8 [] { dbInit with counter := dbInit.counter + 1 } :=
  c8_failure_isolation oracleC8 dbInit "t" ["c"] [["v"]] ["h"] [["v"]] [] (by decide)

/-- C9: for a fixed extractor state, each of the four operations leaves
the state unchanged and a second call returns an identical result —
results are re-derived from the handle alone with no caching or
mutation. -/
theorem c9_stateless_deterministic (st : ExtractorState) :
    ((runExtractText ((runExtractText st).2)).1 = (runExtractText st).1 ∧
     (runExtractText ((runExtractText st).2)).2 = st) ∧
    ((runExtractImages ((runExtractImages st).2)).1 = (runExtractImages st).1 ∧
     (runExtractImages ((runExtractImages st).2)).2 = st) ∧
    ((runExtractTables ((runExtractTables st).2)).1 = (runExtractTables st).1 ∧
     (runExtractTables ((runExtractTables st).2)).2 = st) ∧
    ((runExtractLinks ((runExtractLinks st).2)).1 = (runExtractLinks st).1 ∧
     (runExtractLinks ((runExtractLinks st).2)).2 = st) :=
  ⟨⟨rfl, rfl⟩, ⟨rfl, rfl⟩, ⟨rfl, rfl⟩, ⟨rfl, rfl⟩⟩

/-- C10: an empty extracted table is silently skipped by the relational
sink — no table is created, no row inserted, and the name counter is not
incremented (the state is unchanged), so counter values are consumed
only by non-empty tables. -/
theorem c10_empty_table_skipped (o : SqlOracle) (st : DBState)
    (tabs : List (List (List String))) :
    saveOneTable o st [] = st ∧
    saveTables o ([] :: tabs) st = saveTables o tabs st :=
  ⟨rfl, rfl⟩

end DocExtract
